import Mathlib

/-!
Shallow embedding of `src/main.py` of the hackernews-notion-bridge
repository, together with theorems settling the specification claims.

Modelling conventions:

* The HTTP world is a function `world : Nat → FetchResult` giving, for each
  item id, the outcome of `client.get(.../item/{id}.json)`: a timeout, or a
  response with a status code and a JSON body.  A body of `none` models the
  JSON literal `null`; otherwise the body is an `ItemData` record whose
  `Option` fields model presence/absence of the corresponding JSON keys.
* Python exceptions are modelled by `Except Err`.  `Err.download` is the
  script's own `DownloadExcpetion` class; `Err.keyError`, `Err.typeError`,
  `Err.indexError` and `Err.attributeError` model the built-in exceptions
  that the corresponding Python operations raise.
* `asyncio.gather` without `return_exceptions` re-raises an exception as
  soon as one child task fails; which child's exception surfaces depends on
  scheduling, but whether the gather fails and the list of results on
  success do not.  It is modelled by `gatherAll` (first error in list
  order).  `asyncio.gather(..., return_exceptions=True)` returns the
  per-task outcome list in task order and is modelled by `gatherResults`.
* `BeautifulSoup` values are modelled by the `Html` tree type; the parsing
  step `BeautifulSoup(string, "html.parser")` itself is outside the model,
  so item records carry an already-parsed `Html` fragment in their `text`
  field (a real soup is rooted at a tag named `"[document]"`).
* The recursion of `download_comment` follows the `kids` graph of the
  world, which an adversarial world could make infinite, so the function
  takes a fuel argument modelling the recursion stack; `Err.fuelOut` is
  returned only when fuel runs out and is unreachable for the finite
  tree-shaped worlds the theorems and examples use.
-/

namespace HN

/-- Exceptions that can escape the script's functions.  `download` is the
`DownloadExcpetion` class defined in `src/main.py:18`; the others model the
Python built-ins `KeyError`, `TypeError`, `IndexError`, `AttributeError`. -/
inductive Err where
  | download (msg : String)
  | keyError (key : String)
  | typeError (msg : String)
  | indexError
  | attributeError
  | fuelOut
deriving DecidableEq

/-- Markup tree: a text node (`bs4.element.NavigableString`) or a tag with a
name, attributes and child nodes.  A full soup is a tag named
`"[document]"`. -/
inductive Html where
  | text (s : String)
  | tag (name : String) (attrs : List (String × String)) (children : List Html)

/-- JSON record of one Hacker News item as the script reads it; `Option`
fields model optional JSON keys (`none` = key absent).  The field `by` of
the JSON is called `by_` because `by` is a Lean keyword. -/
structure ItemData where
  by_ : Option String := none
  id : Option Nat := none
  deleted : Option Bool := none
  kids : Option (List Nat) := none
  text : Option Html := none
  time : Option Nat := none
  score : Option Int := none
  title : Option String := none
  url : Option String := none

/-- Outcome of one `client.get` on the item endpoint. -/
inductive FetchResult where
  | timeout
  | response (status : Nat) (body : Option ItemData)

/-- A Hackernews Comment (`src/main.py:22-30`).  The dataclass field `by`
is called `by_` because `by` is a Lean keyword. -/
inductive Comment where
  | mk (by_ : String) (id : Nat) (comments : List Comment) (text : Html) (time : Nat)

def Comment.by_ : Comment → String
  | .mk b _ _ _ _ => b

def Comment.id : Comment → Nat
  | .mk _ i _ _ _ => i

def Comment.comments : Comment → List Comment
  | .mk _ _ cs _ _ => cs

def Comment.text : Comment → Html
  | .mk _ _ _ t _ => t

def Comment.time : Comment → Nat
  | .mk _ _ _ _ tm => tm

/-- A Hackernews Story (`src/main.py:33-43`).  The `comments` field is
declared `List[Comment]` in the source, but the loop at
`src/main.py:139-145` can also append a non-`DownloadExcpetion` exception
object returned by `asyncio.gather(..., return_exceptions=True)`, so the
entries are modelled as `Comment ⊕ Err`. -/
structure Story where
  by_ : Option String
  id : Nat
  comments : List (Comment ⊕ Err)
  score : Int
  time : Nat
  title : String
  url : String

/-- Python dictionary access `data[key]`: the value when the key is
present, otherwise a `KeyError`. -/
def require {α : Type} (o : Option α) (key : String) : Except Err α :=
  match o with
  | some a => .ok a
  | none => .error (.keyError key)

/-- Python truthiness of the guarded lookup `"k" in d and d["k"]` for a
boolean-valued key. -/
def truthyBool : Option Bool → Bool
  | some b => b
  | none => false

/-- Model of `asyncio.gather(*tasks)` without `return_exceptions`: all
results in task order, or the exception of a failed task (taken in list
order here; the set of failures, and the result on success, do not depend
on scheduling because each task is a pure function of the world). -/
def gatherAll {α β : Type} (f : α → Except Err β) : List α → Except Err (List β)
  | [] => .ok []
  | k :: rest =>
    match f k with
    | .error e => .error e
    | .ok c =>
      match gatherAll f rest with
      | .error e => .error e
      | .ok cs => .ok (c :: cs)

/-- Model of `asyncio.gather(*tasks, return_exceptions=True)`: the list of
per-task outcomes in task order. -/
def gatherResults {α β : Type} (f : α → Except Err β) (l : List α) : List (Except Err β) :=
  l.map f

/-- The `download_comment` coroutine (`src/main.py:68-105`): fetch the
item, classify timeout / non-200 / null-or-deleted as `DownloadExcpetion`,
recursively download the `kids` with a plain `gather` (so a failing child
re-raises through the parent), then build the `Comment`, raising `KeyError`
for a missing `by`, `text` or `time` field (in the evaluation order of the
constructor call).  The list comprehension `[c for c in comments if c is
not None]` at `src/main.py:94` is vacuous, since `download_comment` never
returns `None`, and is therefore not represented.  The first argument is
the fuel for the recursion over the world. -/
def download_comment (world : Nat → FetchResult) : Nat → Nat → Except Err Comment
  | 0, _ => .error .fuelOut
  | fuel + 1, id =>
    match world id with
    | .timeout => .error (.download ("Timeout downloading comment " ++ toString id))
    | .response status body =>
      if status ≠ 200 then
        .error (.download ("Hackernews API returned status: " ++ toString status))
      else
        match body with
        | none => .error (.download ("Comment " ++ toString id ++ " is deleted"))
        | some d =>
          if truthyBool d.deleted then
            .error (.download ("Comment " ++ toString id ++ " is deleted"))
          else
            match (match d.kids with
                   | some ks => gatherAll (download_comment world fuel) ks
                   | none => .ok []) with
            | .error e => .error e
            | .ok comments =>
              match require d.by_ "by" with
              | .error e => .error e
              | .ok b =>
                match require d.id "id" with
                | .error e => .error e
                | .ok i =>
                  match require d.text "text" with
                  | .error e => .error e
                  | .ok tx =>
                    match require d.time "time" with
                    | .error e => .error e
                    | .ok tm => .ok (.mk b i comments tx tm)

/-- The filtering loop of `download_story` (`src/main.py:139-145`): walk
the outcome list of the `return_exceptions=True` gather; skip (after a
logged warning) entries that are `DownloadExcpetion` instances; append
every other entry to the comments list — including, faithfully to the
source, exception objects that are not `DownloadExcpetion` instances. -/
def filter_comments : List (Except Err Comment) → List (Comment ⊕ Err)
  | [] => []
  | .ok c :: rest => .inl c :: filter_comments rest
  | .error (.download _) :: rest => filter_comments rest
  | .error e :: rest => .inr e :: filter_comments rest

/-- The `download_story` coroutine (`src/main.py:108-156`): fetch the
item, classify timeout / non-200 as `DownloadExcpetion`; a `null` body
makes the membership test `"url" not in data` raise `TypeError`; a record
without `url` raises `DownloadExcpetion`; then the `kids` are gathered with
`return_exceptions=True` and filtered by `filter_comments`; finally the
`Story` is built, raising `KeyError` for a missing `id`, `score`, `time` or
`title` field (in the evaluation order of the constructor call; `by` is
guarded by a membership test and `url` was already checked). -/
def download_story (world : Nat → FetchResult) (fuel : Nat) (id : Nat) : Except Err Story :=
  match world id with
  | .timeout => .error (.download ("Timeout downloading story " ++ toString id))
  | .response status body =>
    if status ≠ 200 then
      .error (.download ("Hackernews API returned " ++ toString status ++
        " downloading story " ++ toString id))
    else
      match body with
      | none => .error (.typeError "argument of type NoneType is not iterable")
      | some d =>
        match d.url with
        | none => .error (.download ("Story " ++ toString id ++ " has no URL"))
        | some url =>
          let comments :=
            match d.kids with
            | some ks => filter_comments (gatherResults (download_comment world fuel) ks)
            | none => []
          match require d.id "id" with
          | .error e => .error e
          | .ok i =>
            match require d.score "score" with
            | .error e => .error e
            | .ok score =>
              match require d.time "time" with
              | .error e => .error e
              | .ok time =>
                match require d.title "title" with
                | .error e => .error e
                | .ok title =>
                  .ok { by_ := d.by_, id := i, comments := comments, score := score,
                        time := time, title := title, url := url }

mutual
/-- The `count_comments` function (`src/main.py:159-166`) applied to a
`Comment`: add up the recursive counts of the children, then add the number
of children. -/
def count_comments : Comment → Nat
  | .mk _ _ cs _ _ => count_comments_list cs + cs.length
termination_by structural c => c
/-- The `for comment in item.comments` accumulation inside
`count_comments`. -/
def count_comments_list : List Comment → Nat
  | [] => 0
  | c :: rest => count_comments c + count_comments_list rest
termination_by structural l => l
end

/-- The `for comment in item.comments: result += count_comments(comment)`
loop of `count_comments` run on a story's entry list: accumulating the
per-entry counts raises `AttributeError` on an entry that is an exception
object rather than a `Comment` (such an entry has no `comments`
attribute). -/
def entries_counts : List (Comment ⊕ Err) → Except Err Nat
  | [] => .ok 0
  | .inl c :: rest =>
    match entries_counts rest with
    | .error e => .error e
    | .ok n => .ok (count_comments c + n)
  | .inr _ :: _ => .error .attributeError

/-- The `count_comments` function applied to a `Story`: the loop total
plus `len(item.comments)`. -/
def story_count_comments (s : Story) : Except Err Nat :=
  match entries_counts s.comments with
  | .error e => .error e
  | .ok n => .ok (n + s.comments.length)

/-- The download loop of `download_stories` (`src/main.py:182-199`):
while fewer than `number` stories were collected, read the next id from the
listing (`top_story_ids[index]` raises `IndexError` past its end), try to
download it, skip it with a logged warning if that raises
`DownloadExcpetion`, re-raise any other exception, and append the story on
success. -/
def stories_loop (world : Nat → FetchResult) (fuel : Nat) :
    List Nat → Nat → List Story → Except Err (List Story)
  | ids, number, stories =>
    if stories.length < number then
      match ids with
      | [] => .error .indexError
      | id :: rest =>
        match download_story world fuel id with
        | .error (.download _) => stories_loop world fuel rest number stories
        | .error e => .error e
        | .ok s => stories_loop world fuel rest number (stories ++ [s])
    else .ok stories

/-- The `download_stories` coroutine (`src/main.py:169-199`).  The initial
request for `topstories.json` is modelled by passing the decoded listing
`top_story_ids` directly; the claims under study concern the loop that
follows it. -/
def download_stories (world : Nat → FetchResult) (fuel : Nat)
    (top_story_ids : List Nat) (number : Nat) : Except Err (List Story) :=
  stories_loop world fuel top_story_ids number []

/-- An accumulated style dictionary of `richtexts_from_html`
(`src/main.py:220-225`): the possible keys are `bold`, `italic`, `code`,
`color` and `url`; an `Option` field is `none` when the key is absent.
Python's `dict.copy` value semantics is the ordinary value passing of the
record. -/
structure Style where
  bold : Option Bool := none
  italic : Option Bool := none
  code : Option Bool := none
  color : Option String := none
  url : Option String := none
deriving DecidableEq

/-- One Notion rich text object as `richtexts_from_html` builds it: the
`text.content` string, the `annotations` flags (a flag is `false` when the
key is absent from the `annotations` dictionary), the `annotations.color`
value and the `text.link.url` value (`none` when the key is absent). -/
structure RichText where
  content : String := ""
  bold : Bool := false
  italic : Bool := false
  code : Bool := false
  color : Option String := none
  link : Option String := none
deriving DecidableEq

/-- Python truthiness of the guarded lookup `"color" in style and
style["color"]` for a string-valued key: present and non-empty. -/
def truthyString : Option String → Bool
  | some s => s ≠ ""
  | none => false

/-- The `NavigableString` branch of `richtexts_from_html`
(`src/main.py:227-248`): one rich text object whose content is the string
truncated to `2000 - 2` characters and whose annotations reflect the
accumulated style dictionary. -/
def richtext_from_string (s : String) (style : Style) : RichText :=
  { content := s.take (2000 - 2)
    bold := truthyBool style.bold
    italic := truthyBool style.italic
    code := truthyBool style.code
    color := if truthyString style.color then style.color else none
    link := style.url }

/-- The style updates of `richtexts_from_html` for a tag
(`src/main.py:250-262`): `i` sets italic, `b` sets bold, `code`/`pre` set
code, and `a` sets the link target from the `href` attribute (raising
`KeyError` when the attribute is missing, as `tag["href"]` does) together
with the fixed blue color. -/
def updateStyle (name : String) (attrs : List (String × String)) (style : Style) :
    Except Err Style :=
  let style := if name = "i" then { style with italic := some true } else style
  let style := if name = "b" then { style with bold := some true } else style
  let style := if name = "code" || name = "pre" then { style with code := some true } else style
  if name = "a" then
    match attrs.lookup "href" with
    | none => .error (.keyError "href")
    | some href => .ok { style with url := some href, color := some "blue" }
  else .ok style

mutual
/-- The `richtexts_from_html` function (`src/main.py:220-273`): a text
node yields one run carrying the accumulated style; a tag merges its style
contribution, converts its children in document order concatenating their
runs, and, for a `p` tag, prepends `"\n\n"` to the content of the first
resulting run (`res[0]` raises `IndexError` when there is none).  The
unknown-tag branch at `src/main.py:270-271` only logs a warning and is not
represented. -/
def richtexts_from_html : Html → Style → Except Err (List RichText)
  | .text s, style => .ok [richtext_from_string s style]
  | .tag name attrs children, style =>
    match updateStyle name attrs style with
    | .error e => .error e
    | .ok style2 =>
      match richtexts_list children style2 with
      | .error e => .error e
      | .ok res =>
        if name = "p" then
          match res with
          | [] => .error .indexError
          | r :: rest => .ok ({ r with content := "\n\n" ++ r.content } :: rest)
        else .ok res
termination_by structural t => t
/-- The `for kid in tag.contents: res += richtexts_from_html(kid, style)`
loop: children converted left to right with the same style, runs
concatenated, the first exception propagating. -/
def richtexts_list : List Html → Style → Except Err (List RichText)
  | [], _ => .ok []
  | kid :: rest, style =>
    match richtexts_from_html kid style with
    | .error e => .error e
    | .ok a =>
      match richtexts_list rest style with
      | .error e => .error e
      | .ok b => .ok (a ++ b)
termination_by structural l => l
end

mutual
/-- The `getText` method of BeautifulSoup as used at `src/main.py:290`:
the concatenation of all text nodes of the fragment in document order. -/
def getText : Html → String
  | .text s => s
  | .tag _ _ children => getTextList children
termination_by structural t => t
/-- Concatenation of `getText` over a list of sibling nodes. -/
def getTextList : List Html → String
  | [] => ""
  | kid :: rest => getText kid ++ getTextList rest
termination_by structural l => l
end

/-- A Notion block as `block_from_comment` builds it: the rich text runs
of the bulleted list item and its child blocks (the source attaches the
`children` key only when the list is non-empty; an always-present, possibly
empty list is observationally the same for the claims). -/
inductive Block where
  | node (text : List RichText) (children : List Block)

def Block.text : Block → List RichText
  | .node t _ => t

def Block.children : Block → List Block
  | .node _ c => c

/-- The two attribution runs appended after the converted body
(`src/main.py:296-320`): a gray `"\nby "` run and a gray run with the
author's handle linking to their profile. -/
def author_runs (author : String) : List RichText :=
  [ { content := "\nby ", color := some "gray" },
    { content := author, color := some "gray",
      link := some ("https://news.ycombinator.com/user?id=" ++ author) } ]

/-- The plain-text fallback run built in the `except` branch of
`block_from_comment` (`src/main.py:286-293`): the fragment's `getText`
truncated to 2000 characters, with no annotations. -/
def fallback_run (tx : Html) : RichText :=
  { content := (getText tx).take 2000 }

mutual
/-- The `block_from_comment` function (`src/main.py:276-333`): convert the
comment's markup, fall back to the single plain-text run if the conversion
raises any exception, append the attribution runs, and recurse into the
child comments. -/
def block_from_comment : Comment → Block
  | .mk b _ cs tx _ =>
    let text :=
      match richtexts_from_html tx {} with
      | .ok t => t
      | .error _ => [fallback_run tx]
    .node (text ++ author_runs b) (blocks_from_comments cs)
termination_by structural c => c
/-- The `[block_from_comment(c) for c in comment.comments]` comprehension
at `src/main.py:330`. -/
def blocks_from_comments : List Comment → List Block
  | [] => []
  | c :: rest => block_from_comment c :: blocks_from_comments rest
termination_by structural l => l
end

mutual
/-- Absence of paragraph tags in a fragment, used to delimit where the
per-run length ceiling of the converter holds. -/
def noP : Html → Bool
  | .text _ => true
  | .tag name _ children => name ≠ "p" && noPList children
termination_by structural t => t
/-- Absence of paragraph tags in a list of sibling nodes. -/
def noPList : List Html → Bool
  | [] => true
  | kid :: rest => noP kid && noPList rest
termination_by structural l => l
end

mutual
/-- Modelled from the spec: the number of Reply nodes present in a resolved
tree, every node at every depth counted once (`spec.md` §3, "total-reply-
count is always exactly the number of Reply nodes present in the resolved
tree").  This is the specification-side count against which the code's
`count_comments` is compared. -/
def replyNodes : Comment → Nat
  | .mk _ _ cs _ _ => 1 + replyNodesList cs
termination_by structural c => c
/-- Modelled from the spec: sum of `replyNodes` over a forest of reply
trees. -/
def replyNodesList : List Comment → Nat
  | [] => 0
  | c :: rest => replyNodes c + replyNodesList rest
termination_by structural l => l
end

/-! Concrete example inputs used by witnesses, counterexamples and
code-bug evaluations. -/

/-- A minimal parsed comment body: a soup whose only content is the text
node `"x"`. -/
def soupX : Html := .tag "[document]" [] [.text "x"]

/-- Story record 1: a well-formed story whose kids are items 2 and 5. -/
def storyRec1 : ItemData :=
  { by_ := some "alice", id := some 1, score := some 100, time := some 1,
    title := some "t", url := some "http://ex", kids := some [2, 5] }

/-- Comment record 2: a well-formed comment whose kids are items 3 and 4. -/
def commentRec2 : ItemData :=
  { by_ := some "bob", id := some 2, text := some soupX, time := some 2, kids := some [3, 4] }

/-- Comment record 3: a well-formed leaf comment. -/
def commentRec3 : ItemData :=
  { by_ := some "carol", id := some 3, text := some soupX, time := some 3 }

/-- Comment record 5: a well-formed leaf comment. -/
def commentRec5 : ItemData :=
  { by_ := some "dave", id := some 5, text := some soupX, time := some 5 }

/-- World for the pruning counterexample: story 1 has top-level comments 2
and 5; comment 2 has children 3 (fine) and 4 (deleted: the API returns
`null`). -/
def exW1 : Nat → FetchResult := fun id =>
  if id = 1 then .response 200 (some storyRec1)
  else if id = 2 then .response 200 (some commentRec2)
  else if id = 3 then .response 200 (some commentRec3)
  else if id = 4 then .response 200 none
  else if id = 5 then .response 200 (some commentRec5)
  else .timeout

/-- Identifier of a story-comments entry (0 for an exception object). -/
def entry_id : Comment ⊕ Err → Nat
  | .inl c => c.id
  | .inr _ => 0

/-- Story record for the malformed-comment world: its only kid is item 2. -/
def storyRec6 : ItemData :=
  { by_ := some "alice", id := some 1, score := some 100, time := some 1,
    title := some "t", url := some "http://ex", kids := some [2] }

/-- A malformed comment record: the required `text` field is missing. -/
def malformedRec : ItemData :=
  { by_ := some "bob", id := some 2, time := some 2 }

/-- World for the malformed-record evaluation: story 1 has one kid, item
2, whose record lacks the `text` field. -/
def exW6 : Nat → FetchResult := fun id =>
  if id = 1 then .response 200 (some storyRec6)
  else if id = 2 then .response 200 (some malformedRec)
  else .timeout

/-- A malformed story record: the required `score` field is missing. -/
def noScoreRec : ItemData :=
  { by_ := some "alice", id := some 1, time := some 1, title := some "t",
    url := some "http://ex" }

/-- A story record without a `url` field. -/
def noUrlRec : ItemData :=
  { by_ := some "quinn", id := some 2, time := some 1, title := some "t" }

/-- World for the listing-resolver counterexample: item 1 is a story
record lacking `score`, item 2 a story record lacking `url`, everything
else times out. -/
def exW3 : Nat → FetchResult := fun id =>
  if id = 1 then .response 200 (some noScoreRec)
  else if id = 2 then .response 200 (some noUrlRec)
  else .timeout

/-- Well-formed comment record with two leaf kids, for the ordering and
listing witnesses. -/
def rec10 : ItemData :=
  { by_ := some "walt", id := some 10, text := some soupX, time := some 4,
    kids := some [11, 12] }

/-- Well-formed leaf comment record. -/
def rec11 : ItemData :=
  { by_ := some "x1", id := some 11, text := some soupX, time := some 5 }

/-- Well-formed leaf comment record. -/
def rec12 : ItemData :=
  { by_ := some "x2", id := some 12, text := some soupX, time := some 6 }

/-- Well-formed story record whose only kid is item 10. -/
def rec20 : ItemData :=
  { by_ := some "walt", id := some 20, score := some 7, time := some 8,
    title := some "s", url := some "http://s", kids := some [10] }

/-- World where everything resolves: story 20 with comment 10 and its two
leaf children 11 and 12. -/
def exW5 : Nat → FetchResult := fun id =>
  if id = 10 then .response 200 (some rec10)
  else if id = 11 then .response 200 (some rec11)
  else if id = 12 then .response 200 (some rec12)
  else if id = 20 then .response 200 (some rec20)
  else .timeout

/-- The resolved leaf comment for item 11. -/
def c5leaf1 : Comment := .mk "x1" 11 [] soupX 5

/-- The resolved leaf comment for item 12. -/
def c5leaf2 : Comment := .mk "x2" 12 [] soupX 6

/-- The resolved comment for item 10: children in source order. -/
def c5node : Comment := .mk "walt" 10 [c5leaf1, c5leaf2] soupX 4

/-- The resolved story for item 20. -/
def c5story : Story :=
  { by_ := some "walt", id := 20, comments := [Sum.inl c5node], score := 7,
    time := 8, title := "s", url := "http://s" }

/-- A two-level reply tree used by the counting witness. -/
def c2treeA : Comment := .mk "a" 1 [.mk "b" 2 [] soupX 0] soupX 0

/-- A leaf reply used by the counting witness. -/
def c2treeB : Comment := .mk "c" 3 [] soupX 0

/-- A fully resolved story holding the two reply trees above. -/
def c2story : Story :=
  { by_ := some "zoe", id := 9, comments := [Sum.inl c2treeA, Sum.inl c2treeB],
    score := 0, time := 0, title := "t", url := "u" }

/-- The style-composition test fragment `<a href='http://x'><b>hi</b></a>`. -/
def c8soup : Html := .tag "a" [("href", "http://x")] [.tag "b" [] [.text "hi"]]

/-- The paragraph-placement test fragment `<p>a</p><p>b</p>` as a parsed
soup. -/
def c9soup : Html := .tag "[document]" [] [.tag "p" [] [.text "a"], .tag "p" [] [.text "b"]]

/-- A soup whose only content is an empty paragraph `<p></p>`. -/
def c10soup : Html := .tag "[document]" [] [.tag "p" [] []]

/-- A comment whose body is the empty-paragraph soup. -/
def c10comment : Comment := .mk "eve" 42 [] c10soup 9

/-- A 1999-character text, one character short of the Notion limit. -/
def longA : String := String.mk (List.replicate 1999 'a')

/-- A paragraph whose text content is 1999 characters long. -/
def c4bad : Html := .tag "p" [] [.text longA]

/-- A 2500-character text, exceeding the Notion limit. -/
def longB : String := String.mk (List.replicate 2500 'b')

/-- A soup with a 2500-character text node and an empty paragraph, so that
conversion raises after `getText` exceeds the ceiling. -/
def c7soup : Html := .tag "[document]" [] [.text longB, .tag "p" [] []]

/-- A comment whose body is the failing long soup. -/
def c7comment : Comment := .mk "eve" 7 [] c7soup 9

/-- A comment whose body is a bare empty paragraph, used by the fallback
witness. -/
def c7wcomment : Comment := .mk "wren" 8 [] (.tag "p" [] []) 1

/-! Helper lemmas about the fetch pipeline. -/

/-- On success, a plain gather returns one result per task, in task order,
each the result of the corresponding task. -/
theorem gatherAll_ok_spec {α β : Type} (f : α → Except Err β) :
    ∀ (l : List α) (res : List β), gatherAll f l = .ok res →
      res.length = l.length ∧
      ∀ (i : Nat) (hi : i < l.length) (hj : i < res.length),
        f (l.get ⟨i, hi⟩) = .ok (res.get ⟨i, hj⟩)
  | [], res, h => by
    simp only [gatherAll] at h
    cases h
    exact ⟨rfl, fun i hi => by cases hi⟩
  | k :: rest, res, h => by
    rw [gatherAll] at h
    cases hf : f k with
    | error e => rw [hf] at h; exact absurd h (by simp)
    | ok c =>
      rw [hf] at h
      cases hg : gatherAll f rest with
      | error e => rw [hg] at h; exact absurd h (by simp)
      | ok cs =>
        rw [hg] at h
        cases h
        obtain ⟨hlen, hget⟩ := gatherAll_ok_spec f rest cs hg
        refine ⟨by simp [hlen], fun i hi hj => ?_⟩
        match i with
        | 0 => simpa using hf
        | i + 1 =>
          simp only [List.get_cons_succ]
          exact hget i (by simpa using hi) (by simpa using hj)

/-- A plain gather fails as soon as any task fails. -/
theorem gatherAll_error_of_mem {α β : Type} (f : α → Except Err β) :
    ∀ (l : List α) (k : α) (e : Err), k ∈ l → f k = .error e →
      ∃ e2, gatherAll f l = .error e2
  | [], k, e, hk, _ => by cases hk
  | k0 :: rest, k, e, hk, hf => by
    rw [gatherAll]
    cases hf0 : f k0 with
    | error e0 => exact ⟨e0, rfl⟩
    | ok c =>
      rcases List.mem_cons.mp hk with hk | hk
      · subst hk
        rw [hf0] at hf
        cases hf
      · obtain ⟨e2, hg⟩ := gatherAll_error_of_mem f rest k e hk hf
        rw [hg]
        exact ⟨e2, rfl⟩

/-- The story-level filtering of gathered outcomes keeps, in task order,
the successful comments and the non-`DownloadExcpetion` exception objects,
and drops the `DownloadExcpetion` ones. -/
theorem filter_comments_gatherResults (f : Nat → Except Err Comment) :
    ∀ (l : List Nat), filter_comments (gatherResults f l) =
      l.filterMap (fun k =>
        match f k with
        | .ok c => some (Sum.inl c)
        | .error (.download _) => none
        | .error e => some (Sum.inr e))
  | [] => rfl
  | k :: rest => by
    have ih := filter_comments_gatherResults f rest
    simp only [gatherResults, List.map_cons, List.filterMap_cons]
    cases hf : f k with
    | ok c => simpa [filter_comments, gatherResults] using ih
    | error e =>
      cases e <;> simpa [filter_comments, gatherResults] using ih

/-- Filtering gathered outcomes distributes over list append: the entries
kept from one span of tasks do not depend on the other span. -/
theorem filter_comments_append :
    ∀ (a b : List (Except Err Comment)),
      filter_comments (a ++ b) = filter_comments a ++ filter_comments b
  | [], b => rfl
  | x :: rest, b => by
    have ih := filter_comments_append rest b
    match x with
    | .ok c => simp [filter_comments, ih]
    | .error (.download m) => simp [filter_comments, ih]
    | .error (.keyError k) => simp [filter_comments, ih]
    | .error (.typeError m) => simp [filter_comments, ih]
    | .error .indexError => simp [filter_comments, ih]
    | .error .attributeError => simp [filter_comments, ih]
    | .error .fuelOut => simp [filter_comments, ih]

/-- When the download loop returns normally it has accumulated exactly the
requested number of stories: the loop only stops successfully once
`len(stories) < number` fails, and an exhausted listing raises instead of
returning short. -/
theorem stories_loop_ok_length (world : Nat → FetchResult) (fuel number : Nat) :
    ∀ (ids : List Nat) (acc : List Story) (ss : List Story),
      acc.length ≤ number → stories_loop world fuel ids number acc = .ok ss →
      ss.length = number
  | [], acc, ss, hle, h => by
    rw [stories_loop] at h
    by_cases hlt : acc.length < number
    · rw [if_pos hlt] at h
      exact absurd h (by simp)
    · rw [if_neg hlt] at h
      cases h
      omega
  | id :: rest, acc, ss, hle, h => by
    rw [stories_loop] at h
    by_cases hlt : acc.length < number
    · rw [if_pos hlt] at h
      cases hd : download_story world fuel id with
      | error e =>
        rw [hd] at h
        cases e with
        | download m => exact stories_loop_ok_length world fuel number rest acc ss hle h
        | keyError k => exact absurd h (by simp)
        | typeError m => exact absurd h (by simp)
        | indexError => exact absurd h (by simp)
        | attributeError => exact absurd h (by simp)
        | fuelOut => exact absurd h (by simp)
      | ok s =>
        rw [hd] at h
        refine stories_loop_ok_length world fuel number rest (acc ++ [s]) ss ?_ h
        simp only [List.length_append, List.length_cons, List.length_nil]
        omega
    · rw [if_neg hlt] at h
      cases h
      omega

mutual
/-- The code's count of a comment is one less than the number of nodes of
its subtree: it counts every strictly deeper node once. -/
theorem count_comments_succ : ∀ (c : Comment), count_comments c + 1 = replyNodes c
  | .mk b i cs tx tm => by
    rw [count_comments, replyNodes]
    have h := count_comments_list_eq cs
    omega
termination_by structural c => c
/-- The code's count accumulated over a forest equals the number of nodes
of the forest minus nothing: children counts plus the child count itself. -/
theorem count_comments_list_eq :
    ∀ (cs : List Comment), count_comments_list cs + cs.length = replyNodesList cs
  | [] => by simp [count_comments_list, replyNodesList]
  | c :: rest => by
    rw [count_comments_list, replyNodesList]
    have h1 := count_comments_succ c
    have h2 := count_comments_list_eq rest
    simp only [List.length_cons]
    omega
termination_by structural l => l
end

/-- Accumulating entry counts over a list of genuine comments succeeds and
gives the forest count. -/
theorem entries_counts_map_inl :
    ∀ (cs : List Comment), entries_counts (cs.map Sum.inl) = .ok (count_comments_list cs)
  | [] => by rw [List.map_nil, entries_counts, count_comments_list]
  | c :: rest => by
    rw [List.map_cons, entries_counts, entries_counts_map_inl rest, count_comments_list]

/-! Helper lemmas about the markup converter and document builder. -/

/-- Python slicing never yields more characters than requested. -/
theorem string_take_length_le (s : String) (n : Nat) : (s.take n).length ≤ n := by
  rw [String.take_eq, String.length_mk]
  exact List.length_take_le n s.1

/-- A `p` tag contributes no style of its own: the style dictionary passed
to its children is the inherited one. -/
theorem updateStyle_p (attrs : List (String × String)) (σ : Style) :
    updateStyle "p" attrs σ = .ok σ := rfl

mutual
/-- In a fragment with no paragraph tags, every produced run respects the
`2000 - 2` character ceiling of the text-node branch. -/
theorem richtexts_noP_le : ∀ (t : Html) (σ : Style) (rs : List RichText), noP t = true →
    richtexts_from_html t σ = .ok rs → ∀ r ∈ rs, r.content.length ≤ 2000 - 2
  | .text s, σ, rs, _, h => by
    rw [richtexts_from_html] at h
    cases h
    intro r hr
    simp only [List.mem_singleton] at hr
    subst hr
    simpa [richtext_from_string] using string_take_length_le s (2000 - 2)
  | .tag name attrs children, σ, rs, hp, h => by
    rw [noP, Bool.and_eq_true, decide_eq_true_eq] at hp
    rw [richtexts_from_html] at h
    cases hu : updateStyle name attrs σ with
    | error e => rw [hu] at h; exact absurd h (by simp)
    | ok σ2 =>
      rw [hu] at h
      dsimp only at h
      cases hl : richtexts_list children σ2 with
      | error e => rw [hl] at h; exact absurd h (by simp)
      | ok res =>
        rw [hl] at h
        dsimp only at h
        rw [if_neg hp.1] at h
        cases h
        exact richtexts_list_noP_le children σ2 rs hp.2 hl
termination_by structural t => t
/-- List version of `richtexts_noP_le`. -/
theorem richtexts_list_noP_le : ∀ (l : List Html) (σ : Style) (rs : List RichText),
    noPList l = true → richtexts_list l σ = .ok rs → ∀ r ∈ rs, r.content.length ≤ 2000 - 2
  | [], σ, rs, _, h => by
    rw [richtexts_list] at h
    cases h
    simp
  | kid :: rest, σ, rs, hp, h => by
    rw [noPList, Bool.and_eq_true] at hp
    rw [richtexts_list] at h
    cases hk : richtexts_from_html kid σ with
    | error e => rw [hk] at h; exact absurd h (by simp)
    | ok a =>
      rw [hk] at h
      cases hr : richtexts_list rest σ with
      | error e => rw [hr] at h; exact absurd h (by simp)
      | ok b =>
        rw [hr] at h
        cases h
        intro r hrr
        rcases List.mem_append.mp hrr with hx | hx
        · exact richtexts_noP_le kid σ a hp.1 hk r hx
        · exact richtexts_list_noP_le rest σ b hp.2 hr r hx
termination_by structural l => l
end

/-- Converting concatenated sibling spans concatenates their runs: what a
span of siblings produces does not depend on the siblings around it. -/
theorem richtexts_list_append : ∀ (xs ys : List Html) (σ : Style) (as bs : List RichText),
    richtexts_list xs σ = .ok as → richtexts_list ys σ = .ok bs →
    richtexts_list (xs ++ ys) σ = .ok (as ++ bs)
  | [], ys, σ, as, bs, hx, hy => by
    rw [richtexts_list] at hx
    cases hx
    simpa using hy
  | x :: rest, ys, σ, as, bs, hx, hy => by
    rw [richtexts_list] at hx
    cases hxx : richtexts_from_html x σ with
    | error e => rw [hxx] at hx; exact absurd hx (by simp)
    | ok a1 =>
      rw [hxx] at hx
      cases hxr : richtexts_list rest σ with
      | error e => rw [hxr] at hx; exact absurd hx (by simp)
      | ok a2 =>
        rw [hxr] at hx
        cases hx
        have ih := richtexts_list_append rest ys σ a2 bs hxr hy
        rw [List.cons_append, richtexts_list, hxx, ih]
        simp

/-- A failing child conversion fails the whole sibling-list conversion:
the loop re-raises the first exception. -/
theorem richtexts_list_error_of_mem : ∀ (l : List Html) (σ : Style) (kid : Html),
    kid ∈ l → (richtexts_from_html kid σ).isOk = false →
    (richtexts_list l σ).isOk = false
  | [], _, _, hm, _ => by cases hm
  | x :: rest, σ, kid, hm, hk => by
    rw [richtexts_list]
    cases hx : richtexts_from_html x σ with
    | error e => simp [Except.isOk, Except.toBool]
    | ok a =>
      rcases List.mem_cons.mp hm with h | h
      · subst h
        rw [hx] at hk
        simp [Except.isOk, Except.toBool] at hk
      · have ih := richtexts_list_error_of_mem rest σ kid h hk
        cases hr : richtexts_list rest σ with
        | error e => simp [Except.isOk, Except.toBool]
        | ok b =>
          rw [hr] at ih
          simp [Except.isOk, Except.toBool] at ih

/-- When the markup conversion of a comment fails, the block is built from
the single plain-text fallback run followed by the attribution runs. -/
theorem block_text_of_error (b : String) (i : Nat) (cs : List Comment) (tx : Html)
    (tm : Nat) (e : Err) (h : richtexts_from_html tx {} = .error e) :
    (block_from_comment (.mk b i cs tx tm)).text = fallback_run tx :: author_runs b := by
  rw [block_from_comment, h]
  simp [Block.text]

/-- Unfolding lemma: when a comment download succeeds on a record with
kids, its children list is exactly the successful plain gather of the
kids. -/
theorem download_comment_ok_gather (world : Nat → FetchResult) (fuel id : Nat)
    (d : ItemData) (ks : List Nat) (c : Comment)
    (hw : world id = .response 200 (some d)) (hdel : truthyBool d.deleted = false)
    (hkids : d.kids = some ks)
    (h : download_comment world (fuel + 1) id = .ok c) :
    gatherAll (download_comment world fuel) ks = .ok c.comments := by
  rw [download_comment, hw] at h
  dsimp only at h
  rw [if_neg (by simp)] at h
  rw [hdel] at h
  rw [if_neg (by simp)] at h
  rw [hkids] at h
  dsimp only at h
  cases hg : gatherAll (download_comment world fuel) ks with
  | error e => rw [hg] at h; exact absurd h (by simp)
  | ok cs =>
    rw [hg] at h
    dsimp only at h
    cases hb : require d.by_ "by" with
    | error e => rw [hb] at h; exact absurd h (by simp)
    | ok b =>
      rw [hb] at h
      dsimp only at h
      cases hi : require d.id "id" with
      | error e => rw [hi] at h; exact absurd h (by simp)
      | ok i =>
        rw [hi] at h
        dsimp only at h
        cases ht : require d.text "text" with
        | error e => rw [ht] at h; exact absurd h (by simp)
        | ok tx =>
          rw [ht] at h
          dsimp only at h
          cases hm : require d.time "time" with
          | error e => rw [hm] at h; exact absurd h (by simp)
          | ok tm =>
            rw [hm] at h
            dsimp only at h
            cases h
            simp only [Comment.comments]

/-- Unfolding lemma: when a story download succeeds on a record with kids,
its comments entries are exactly the filtered outcomes of the
`return_exceptions=True` gather of the kids. -/
theorem download_story_ok_comments (world : Nat → FetchResult) (fuel id : Nat)
    (d : ItemData) (ks : List Nat) (s : Story)
    (hw : world id = .response 200 (some d)) (hkids : d.kids = some ks)
    (h : download_story world fuel id = .ok s) :
    s.comments = filter_comments (gatherResults (download_comment world fuel) ks) := by
  rw [download_story, hw] at h
  dsimp only at h
  rw [if_neg (by simp)] at h
  cases hu : d.url with
  | none => rw [hu] at h; exact absurd h (by simp)
  | some u =>
    rw [hu] at h
    dsimp only at h
    rw [hkids] at h
    dsimp only at h
    cases hi : require d.id "id" with
    | error e => rw [hi] at h; exact absurd h (by simp)
    | ok i =>
      rw [hi] at h
      dsimp only at h
      cases hsc : require d.score "score" with
      | error e => rw [hsc] at h; exact absurd h (by simp)
      | ok score =>
        rw [hsc] at h
        dsimp only at h
        cases htm : require d.time "time" with
        | error e => rw [htm] at h; exact absurd h (by simp)
        | ok time =>
          rw [htm] at h
          dsimp only at h
          cases htt : require d.title "title" with
          | error e => rw [htt] at h; exact absurd h (by simp)
          | ok title =>
            rw [htt] at h
            dsimp only at h
            cases h
            rfl

/-- Unfolding lemma: a comment download on a record with kids fails as
soon as one kid's download fails, whatever the reason. -/
theorem download_comment_err_of_child (world : Nat → FetchResult) (fuel id : Nat)
    (d : ItemData) (ks : List Nat) (k : Nat) (e : Err)
    (hw : world id = .response 200 (some d)) (hdel : truthyBool d.deleted = false)
    (hkids : d.kids = some ks) (hk : k ∈ ks)
    (herr : download_comment world fuel k = .error e) :
    (download_comment world (fuel + 1) id).isOk = false := by
  obtain ⟨e2, hg⟩ := gatherAll_error_of_mem (download_comment world fuel) ks k e hk herr
  rw [download_comment, hw]
  dsimp only
  rw [if_neg (by simp)]
  rw [hdel]
  rw [if_neg (by simp)]
  rw [hkids]
  dsimp only
  rw [hg]
  dsimp only
  simp [Except.isOk, Except.toBool]

/-! Claim theorems. -/

/-- C1, counterexample: in the world `exW1`, comment 2's child 3 is
perfectly resolvable and only the sibling child 4 is deleted, yet comment
2's whole resolution fails and the story keeps only comment 5 — the
deleted node at depth 2 pruned its parent's entire subtree instead of just
its own, contradicting branch-local pruning. -/
theorem c1_counterexample :
    (download_comment exW1 10 3).isOk = true ∧
    download_comment exW1 10 4 = .error (.download "Comment 4 is deleted") ∧
    (download_comment exW1 10 2).isOk = false ∧
    (download_story exW1 10 1).map (fun s => s.comments.map entry_id) = .ok [5] :=
  ⟨rfl, rfl, rfl, rfl⟩

/-- C1, amended: pruning is branch-local only at the story's direct
children.  When resolving the children of a comment node, a failure in one
child's subtree fails the whole comment node (the parent is not
constructed with the surviving children).  At the story level a child
whose resolution fails with `DownloadExcpetion` is dropped without
affecting the entries contributed by the other children. -/
theorem c1_amended :
    (∀ (world : Nat → FetchResult) (fuel id : Nat) (d : ItemData) (ks : List Nat)
        (k : Nat) (e : Err),
        world id = .response 200 (some d) → truthyBool d.deleted = false →
        d.kids = some ks → k ∈ ks → download_comment world fuel k = .error e →
        (download_comment world (fuel + 1) id).isOk = false) ∧
    (∀ (world : Nat → FetchResult) (fuel : Nat) (m : String) (k : Nat)
        (ks1 ks2 : List Nat),
        download_comment world fuel k = .error (.download m) →
        filter_comments (gatherResults (download_comment world fuel) (ks1 ++ k :: ks2)) =
          filter_comments (gatherResults (download_comment world fuel) (ks1 ++ ks2))) := by
  constructor
  · intro world fuel id d ks k e hw hdel hkids hk herr
    exact download_comment_err_of_child world fuel id d ks k e hw hdel hkids hk herr
  · intro world fuel m k ks1 ks2 hk
    simp only [gatherResults, List.map_append, List.map_cons]
    rw [filter_comments_append, filter_comments_append, hk]
    simp [filter_comments]

set_option maxRecDepth 4096 in
/-- C1, witness for the amended statement at the concrete world `exW1`. -/
theorem c1_amended_witness :
    download_comment exW1 9 4 = .error (.download "Comment 4 is deleted") ∧
    (download_comment exW1 (9 + 1) 2).isOk = false :=
  ⟨rfl, c1_amended.1 exW1 9 2 commentRec2 [3, 4] 4 (.download "Comment 4 is deleted")
    rfl rfl rfl (by simp) rfl⟩

/-- C2: for a fully resolved story (every comments entry a genuine
comment), the code's `count_comments` equals the number of Reply nodes
present in the post-pruning tree. -/
theorem c2_count_comments_correct (s : Story) (cs : List Comment)
    (h : s.comments = cs.map Sum.inl) :
    story_count_comments s = .ok (replyNodesList cs) := by
  rw [story_count_comments, h, entries_counts_map_inl]
  dsimp only
  rw [List.length_map, count_comments_list_eq]

/-- C2, witness: on a concrete story with three reply nodes across two
trees, the count is 3. -/
theorem c2_count_comments_correct_witness :
    story_count_comments c2story = .ok (replyNodesList [c2treeA, c2treeB]) ∧
    replyNodesList [c2treeA, c2treeB] = 3 :=
  ⟨c2_count_comments_correct c2story [c2treeA, c2treeB] rfl, rfl⟩

set_option maxRecDepth 4096 in
/-- C3, counterexample: a candidate story whose record lacks `score`
aborts the whole collection with a `KeyError` instead of being logged and
skipped; and an exhausted listing raises `IndexError` instead of the loop
returning fewer stories. -/
theorem c3_counterexample :
    download_stories exW3 10 [1] 1 = .error (.keyError "score") ∧
    download_stories exW3 10 [] 1 = .error .indexError :=
  ⟨rfl, rfl⟩

/-- C3, amended: on success the collector returns exactly the requested
number of stories (never fewer: exhaustion raises instead); a candidate
failing with `DownloadExcpetion` (timeout, bad status, missing URL) is
skipped without aborting; and a root record without a target URL always
fails with `DownloadExcpetion`, so no returned story lacks one.  Failures
that raise anything other than `DownloadExcpetion` — such as the
`KeyError` of a malformed root — abort the collection. -/
theorem c3_amended :
    (∀ (world : Nat → FetchResult) (fuel : Nat) (ids : List Nat) (number : Nat)
        (ss : List Story),
        download_stories world fuel ids number = .ok ss → ss.length = number) ∧
    (∀ (world : Nat → FetchResult) (fuel id : Nat) (rest : List Nat) (number : Nat)
        (acc : List Story) (m : String),
        acc.length < number → download_story world fuel id = .error (.download m) →
        stories_loop world fuel (id :: rest) number acc =
          stories_loop world fuel rest number acc) ∧
    (∀ (world : Nat → FetchResult) (fuel id : Nat) (d : ItemData),
        world id = .response 200 (some d) → d.url = none →
        download_story world fuel id =
          .error (.download ("Story " ++ toString id ++ " has no URL"))) := by
  refine ⟨?_, ?_, ?_⟩
  · intro world fuel ids number ss h
    exact stories_loop_ok_length world fuel number ids [] ss (by simp) h
  · intro world fuel id rest number acc m hlt hd
    conv_lhs => rw [stories_loop]
    rw [if_pos hlt, hd]
  · intro world fuel id d hw hu
    rw [download_story, hw]
    dsimp only
    rw [if_neg (by simp)]
    rw [hu]

set_option maxRecDepth 4096 in
/-- C3, witness for the amended statement on concrete worlds. -/
theorem c3_amended_witness :
    (download_stories exW5 2 [20] 1 = .ok [c5story] ∧
      ([c5story] : List Story).length = 1) ∧
    stories_loop exW3 10 [99] 1 [] = stories_loop exW3 10 [] 1 [] ∧
    download_story exW3 10 2 =
      .error (.download ("Story " ++ toString 2 ++ " has no URL")) :=
  ⟨⟨rfl, c3_amended.1 exW5 2 [20] 1 [c5story] rfl⟩,
   c3_amended.2.1 exW3 10 99 [] 1 [] "Timeout downloading story 99" (by simp) rfl,
   c3_amended.2.2 exW3 10 2 noUrlRec rfl rfl⟩

/-- C5: when a comment node resolves, its children are exactly the
resolutions of its source-declared kid identifiers, position by position
in source order; when a story resolves, its comment entries are the
in-order per-kid outcomes with the `DownloadExcpetion` failures dropped.
The model's gather returns results in task order by construction, which is
what `asyncio.gather` guarantees regardless of completion order. -/
theorem c5_sibling_order :
    (∀ (world : Nat → FetchResult) (fuel id : Nat) (d : ItemData) (ks : List Nat)
        (c : Comment),
        world id = .response 200 (some d) → truthyBool d.deleted = false →
        d.kids = some ks → download_comment world (fuel + 1) id = .ok c →
        c.comments.length = ks.length ∧
        ∀ (i : Nat) (hi : i < ks.length) (hj : i < c.comments.length),
          download_comment world fuel (ks.get ⟨i, hi⟩) = .ok (c.comments.get ⟨i, hj⟩)) ∧
    (∀ (world : Nat → FetchResult) (fuel id : Nat) (d : ItemData) (ks : List Nat)
        (s : Story),
        world id = .response 200 (some d) → d.kids = some ks →
        download_story world fuel id = .ok s →
        s.comments = ks.filterMap (fun k =>
          match download_comment world fuel k with
          | .ok c => some (Sum.inl c)
          | .error (.download _) => none
          | .error e => some (Sum.inr e))) := by
  constructor
  · intro world fuel id d ks c hw hdel hkids h
    exact gatherAll_ok_spec (download_comment world fuel) ks c.comments
      (download_comment_ok_gather world fuel id d ks c hw hdel hkids h)
  · intro world fuel id d ks s hw hkids h
    rw [download_story_ok_comments world fuel id d ks s hw hkids h]
    exact filter_comments_gatherResults (download_comment world fuel) ks

set_option maxRecDepth 4096 in
/-- C5, witness at the concrete world `exW5`. -/
theorem c5_sibling_order_witness :
    download_comment exW5 2 10 = .ok c5node ∧
    c5node.comments.length = ([11, 12] : List Nat).length ∧
    download_story exW5 2 20 = .ok c5story ∧
    c5story.comments = ([10] : List Nat).filterMap (fun k =>
      match download_comment exW5 2 k with
      | .ok c => some (Sum.inl c)
      | .error (.download _) => none
      | .error e => some (Sum.inr e)) :=
  ⟨rfl, (c5_sibling_order.1 exW5 1 10 rec10 [11, 12] c5node rfl rfl rfl rfl).1,
   rfl, c5_sibling_order.2 exW5 2 20 rec20 [10] c5story rfl rfl rfl⟩

set_option maxRecDepth 4096 in
/-- C6: evaluation at the failing input.  A comment record lacking the
required `text` field makes `download_comment` raise `KeyError` — not
`DownloadExcpetion` — and `download_story` then appends the `KeyError`
exception object to the story's comments list instead of omitting the node
with a warning, because the filter at `src/main.py:140` only recognises
`DownloadExcpetion` instances. -/
theorem c6_malformed_record_eval :
    download_comment exW6 10 2 = .error (.keyError "text") ∧
    (download_story exW6 10 1).map (fun s => s.comments) =
      .ok [Sum.inr (Err.keyError "text")] :=
  ⟨rfl, rfl⟩

/-- C4, counterexample: converting a paragraph whose text node is 1999
characters long yields a single run of exactly 2000 characters — the
paragraph prepend pushes the first run two characters past the `2000 - 2`
ceiling. -/
theorem c4_counterexample :
    richtexts_from_html c4bad {} = .ok [{ content := "\n\n" ++ longA.take (2000 - 2) }] ∧
    ("\n\n" ++ longA.take (2000 - 2)).length = 2000 := by
  constructor
  · simp [c4bad, richtexts_from_html, richtexts_list, updateStyle, richtext_from_string,
      truthyBool, truthyString]
  · have h1 : longA.1 = List.replicate 1999 'a' := rfl
    have h2 : ("\n\n" : String).length = 2 := rfl
    have h3 : (longA.take (2000 - 2)).length = 1998 := by
      rw [String.take_eq, String.length_mk, h1, List.length_take, List.length_replicate]
      omega
    rw [String.length_append, h2, h3]

/-- C4, amended: a text node always yields exactly one run, its content
truncated to `2000 - 2` characters, never split; and in a fragment without
paragraph tags every produced run respects that ceiling.  Each enclosing
paragraph tag, however, prepends two newline characters to the first run
of its children, which can push that run past the ceiling. -/
theorem c4_amended :
    (∀ (s : String) (σ : Style),
        richtexts_from_html (.text s) σ = .ok [richtext_from_string s σ] ∧
        (richtext_from_string s σ).content = s.take (2000 - 2) ∧
        (richtext_from_string s σ).content.length ≤ 2000 - 2) ∧
    (∀ (t : Html) (σ : Style) (rs : List RichText), noP t = true →
        richtexts_from_html t σ = .ok rs → ∀ r ∈ rs, r.content.length ≤ 2000 - 2) := by
  constructor
  · intro s σ
    refine ⟨by rw [richtexts_from_html], by dsimp only [richtext_from_string], ?_⟩
    simpa [richtext_from_string] using string_take_length_le s (2000 - 2)
  · exact richtexts_noP_le

/-- C4, witness for the amended statement at a concrete text node. -/
theorem c4_amended_witness :
    noP (.text "hi") = true ∧
    (richtext_from_string "hi" ({} : Style)).content.length ≤ 2000 - 2 :=
  ⟨rfl, c4_amended.2 (.text "hi") {} [richtext_from_string "hi" {}] rfl rfl
    (richtext_from_string "hi" {}) (by simp)⟩

/-- C7, counterexample: when conversion of a comment body with 2500
characters of text fails, the fallback run holds the plain text truncated
to 2000 characters — not to the `2000 - 2` ceiling of the converter. -/
theorem c7_counterexample :
    richtexts_from_html c7soup {} = .error .indexError ∧
    (block_from_comment c7comment).text =
      { content := (getText c7soup).take 2000 } :: author_runs "eve" ∧
    ((getText c7soup).take 2000).length = 2000 ∧ 2000 - 2 < 2000 := by
  refine ⟨?_, ?_, ?_, by omega⟩
  · simp [c7soup, richtexts_from_html, richtexts_list, updateStyle]
  · simp [c7comment, block_from_comment, blocks_from_comments]
    rw [show richtexts_from_html c7soup {} = .error .indexError by
      simp [c7soup, richtexts_from_html, richtexts_list, updateStyle]]
    simp [fallback_run, Block.text]
  · have h : getText c7soup = longB ++ ("" ++ "") := rfl
    have hb : (longB ++ ("" ++ "")).1 = List.replicate 2500 'b' := by
      have he : ("" : String).1 = [] := rfl
      have hl : longB.1 = List.replicate 2500 'b' := rfl
      rw [String.data_append, String.data_append, he, hl, List.append_nil, List.append_nil]
    rw [h, String.take_eq, String.length_mk, hb, List.length_take, List.length_replicate]
    omega

/-- C7, amended: whenever conversion of a comment's body raises, the block
is built from exactly one unstyled fallback run — the body's plain-text
extraction truncated to 2000 characters (the raw Notion limit rather than
the margin-reserved `2000 - 2` ceiling) — followed by the attribution
runs; building the block never aborts. -/
theorem c7_amended (b : String) (i : Nat) (cs : List Comment) (tx : Html) (tm : Nat)
    (e : Err) (h : richtexts_from_html tx {} = .error e) :
    (block_from_comment (.mk b i cs tx tm)).text = fallback_run tx :: author_runs b ∧
    (fallback_run tx).content = (getText tx).take 2000 ∧
    (fallback_run tx).content.length ≤ 2000 ∧
    (fallback_run tx).bold = false ∧ (fallback_run tx).italic = false ∧
    (fallback_run tx).code = false ∧ (fallback_run tx).color = none ∧
    (fallback_run tx).link = none := by
  refine ⟨block_text_of_error b i cs tx tm e h, by dsimp only [fallback_run], ?_,
    rfl, rfl, rfl, rfl, rfl⟩
  simpa [fallback_run] using string_take_length_le (getText tx) 2000

/-- C7, witness for the amended statement at a concrete failing body. -/
theorem c7_amended_witness :
    richtexts_from_html (Html.tag "p" [] []) {} = .error .indexError ∧
    (block_from_comment c7wcomment).text =
      fallback_run (Html.tag "p" [] []) :: author_runs "wren" := by
  have h : richtexts_from_html (Html.tag "p" [] []) {} = .error .indexError := by
    simp [richtexts_from_html, richtexts_list, updateStyle]
  exact ⟨h, (c7_amended "wren" 8 [] (.tag "p" [] []) 1 .indexError h).1⟩

/-- C8: the boolean style contributions are only ever added going down the
nesting (an inherited bold/italic/code flag survives every tag's update);
a span of siblings converts independently of the siblings around it; and
the concrete fragment `<a href='http://x'><b>hi</b></a>` yields exactly
one run with content `"hi"`, bold, the link target and the fixed blue
color. -/
theorem c8_style_composition :
    (∀ (name : String) (attrs : List (String × String)) (σ σ2 : Style),
        updateStyle name attrs σ = .ok σ2 →
        (truthyBool σ.bold = true → truthyBool σ2.bold = true) ∧
        (truthyBool σ.italic = true → truthyBool σ2.italic = true) ∧
        (truthyBool σ.code = true → truthyBool σ2.code = true)) ∧
    (∀ (xs ys : List Html) (σ : Style) (as bs : List RichText),
        richtexts_list xs σ = .ok as → richtexts_list ys σ = .ok bs →
        richtexts_list (xs ++ ys) σ = .ok (as ++ bs)) ∧
    richtexts_from_html c8soup {} =
      .ok [{ content := "hi", bold := true, color := some "blue", link := some "http://x" }] := by
  refine ⟨?_, richtexts_list_append, ?_⟩
  · intro name attrs σ σ2 h
    rw [updateStyle] at h
    split_ifs at h <;>
      first
      | (cases h
         refine ⟨?_, ?_, ?_⟩ <;> intro hb <;> simp_all [truthyBool])
      | (cases hl : attrs.lookup "href" with
         | none => rw [hl] at h; exact absurd h (by simp)
         | some href =>
           rw [hl] at h
           cases h
           refine ⟨?_, ?_, ?_⟩ <;> intro hb <;> simp_all [truthyBool])
  · simp [c8soup, richtexts_from_html, richtexts_list, updateStyle, richtext_from_string,
      truthyBool, truthyString, String.take_eq]

/-- C8, witness: the monotonicity conjunct applied to a bold style passing
an `i` tag, and the sibling-independence conjunct applied to two
one-element spans. -/
theorem c8_style_composition_witness :
    truthyBool (Style.bold { bold := some true, italic := some true }) = true ∧
    richtexts_list ([Html.text "x"] ++ [Html.text "y"]) {} =
      .ok ([richtext_from_string "x" {}] ++ [richtext_from_string "y" {}]) :=
  ⟨(c8_style_composition.1 "i" [] { bold := some true }
      { bold := some true, italic := some true } rfl).1 rfl,
   c8_style_composition.2.1 [Html.text "x"] [Html.text "y"] {}
     [richtext_from_string "x" {}] [richtext_from_string "y" {}] rfl rfl⟩

/-- C9: a paragraph tag whose children produce at least one run prepends
the two-newline separator to the first run's content and adds no run; in
particular `<p>a</p><p>b</p>` converts to exactly the two runs
`"\n\na"` and `"\n\nb"`. -/
theorem c9_paragraph_break :
    (∀ (attrs : List (String × String)) (children : List Html) (σ : Style)
        (r : RichText) (rest : List RichText),
        richtexts_list children σ = .ok (r :: rest) →
        richtexts_from_html (.tag "p" attrs children) σ =
          .ok ({ r with content := "\n\n" ++ r.content } :: rest)) ∧
    richtexts_from_html c9soup {} = .ok [{ content := "\n\na" }, { content := "\n\nb" }] := by
  constructor
  · intro attrs children σ r rest h
    rw [richtexts_from_html, updateStyle_p]
    dsimp only
    rw [h]
    simp
  · simp [c9soup, richtexts_from_html, richtexts_list, updateStyle, richtext_from_string,
      truthyBool, truthyString, String.take_eq]

/-- C9, witness: the paragraph conjunct applied to `<p>a</p>`. -/
theorem c9_paragraph_break_witness :
    richtexts_list [Html.text "a"] {} = .ok [richtext_from_string "a" {}] ∧
    richtexts_from_html (.tag "p" [] [Html.text "a"]) {} =
      .ok ({ richtext_from_string "a" {} with
             content := "\n\n" ++ (richtext_from_string "a" {}).content } :: []) :=
  ⟨rfl, c9_paragraph_break.1 [] [Html.text "a"] {} (richtext_from_string "a" {}) [] rfl⟩

/-- C10: a paragraph tag whose children produce zero runs makes the
converter raise `IndexError`; a failing child conversion fails the whole
enclosing tag's conversion; and whenever conversion of a comment's body
raises, `block_from_comment` still returns a block whose text begins with
the plain-text fallback run — it never propagates the exception. -/
theorem c10_conversion_failure :
    (∀ (attrs : List (String × String)) (children : List Html) (σ : Style),
        richtexts_list children σ = .ok [] →
        richtexts_from_html (.tag "p" attrs children) σ = .error .indexError) ∧
    (∀ (name : String) (attrs : List (String × String)) (children : List Html)
        (σ σ2 : Style) (kid : Html),
        updateStyle name attrs σ = .ok σ2 → kid ∈ children →
        (richtexts_from_html kid σ2).isOk = false →
        (richtexts_from_html (.tag name attrs children) σ).isOk = false) ∧
    (∀ (b : String) (i : Nat) (cs : List Comment) (tx : Html) (tm : Nat) (e : Err),
        richtexts_from_html tx {} = .error e →
        (block_from_comment (.mk b i cs tx tm)).text.head? = some (fallback_run tx)) := by
  refine ⟨?_, ?_, ?_⟩
  · intro attrs children σ h
    rw [richtexts_from_html, updateStyle_p]
    dsimp only
    rw [h]
    simp
  · intro name attrs children σ σ2 kid hu hm hk
    have hl := richtexts_list_error_of_mem children σ2 kid hm hk
    rw [richtexts_from_html, hu]
    dsimp only
    cases hll : richtexts_list children σ2 with
    | error e => simp [Except.isOk, Except.toBool]
    | ok res =>
      rw [hll] at hl
      simp [Except.isOk, Except.toBool] at hl
  · intro b i cs tx tm e h
    rw [block_text_of_error b i cs tx tm e h]
    rfl

/-- C10, witness at the empty paragraph and the concrete comment holding
it. -/
theorem c10_conversion_failure_witness :
    richtexts_from_html (Html.tag "p" [] ([] : List Html)) {} = .error .indexError ∧
    (richtexts_from_html c10soup {}).isOk = false ∧
    (block_from_comment c10comment).text.head? = some (fallback_run c10soup) :=
  ⟨c10_conversion_failure.1 [] [] {} rfl,
   c10_conversion_failure.2.1 "[document]" [] [.tag "p" [] []] {} {} (.tag "p" [] [])
     rfl (by simp) rfl,
   c10_conversion_failure.2.2 "eve" 42 [] c10soup 9 .indexError rfl⟩

end HN
